import Mathlib

/-!
Verification of the dca3-kos input/peripheral core:
the maple controller polling driver and button-callback registry
(`kernel/arch/dreamcast/hardware/maple/controller.c`) and the VMU
data-file container codec (`kernel/arch/dreamcast/util/vmu_pkg.c`).

Byte buffers are modelled as `List Nat` (each element one byte), machine
integers as `Nat`/`Int` with explicit `% 2 ^ w` where wrap-around matters.
C pointers paired with implicit region sizes become Lean lists whose
lengths are pinned by the well-formedness predicate used in the theorems.
-/

set_option maxRecDepth 4000

/-! ## Byte-buffer primitives -/

/-- Byte at index `i` of a buffer (reads as the C pointer access `buf[i]`). -/
def byteD (l : List Nat) (i : Nat) : Nat := l.getD i 0

/-- Little-endian decode of a 16-bit field at the head of a buffer. -/
def u16de (l : List Nat) : Nat := byteD l 0 + 256 * byteD l 1

/-- Little-endian decode of a 32-bit field at the head of a buffer. -/
def u32de (l : List Nat) : Nat :=
  byteD l 0 + 256 * byteD l 1 + 65536 * byteD l 2 + 16777216 * byteD l 3

/-- Little-endian encode of a 16-bit value. -/
def u16le (v : Nat) : List Nat := [v % 256, v / 256 % 256]

/-- Little-endian encode of a 32-bit value. -/
def u32le (v : Nat) : List Nat :=
  [v % 256, v / 256 % 256, v / 65536 % 256, v / 16777216 % 256]

/-- In-place store of a 16-bit little-endian value at offset `i`
(reads as the C assignment `hdr->crc = v`). -/
def setU16 (l : List Nat) (i v : Nat) : List Nat :=
  (l.set i (v % 256)).set (i + 1) (v / 256 % 256)

/-- Decode a byte region as consecutive little-endian 16-bit entries
(reads as viewing a `uint16[]` array). -/
def u16chunks : List Nat → List Nat
  | b0 :: b1 :: t => (b0 + 256 * b1) :: u16chunks t
  | _ => []

/-- The bytes of a C string before its terminator (`strlen` semantics). -/
def cstr (s : List Nat) : List Nat := s.takeWhile (fun b => b != 0)

/-- A fixed-width field of width `w`, pre-filled with `fill` and overwritten
from the start by `s` (C: `memset(field, fill, w); memcpy(field, s, len)`;
the code assumes `len ≤ w`). -/
def padField (s : List Nat) (w fill : Nat) : List Nat :=
  s.take w ++ List.replicate (w - s.length) fill

/-! ## vmu_pkg.c : CRC

`vmu_pkg_crc` from vmu_pkg.c lines 24-38.  The C accumulator `n` is an
`int` never masked during the loop; bits at position 16 and above never
feed back into bits 0-15 (the loop only shifts left, xors in constants
below 2 ^ 16, and tests bit 15), and the final result is `n & 0xffff`,
so reducing `% 65536` at every step gives the same function. -/

/-- One shift-and-conditionally-xor round of the CRC inner loop. -/
def vmu_crc_round (n : Nat) : Nat :=
  if n &&& 0x8000 ≠ 0 then ((n <<< 1) ^^^ 4129) % 65536 else (n <<< 1) % 65536

/-- One byte step of the CRC: xor the byte into the high half, then 8 rounds. -/
def vmu_crc_byte (n b : Nat) : Nat := vmu_crc_round^[8] ((n ^^^ (b <<< 8)) % 65536)

/-- `vmu_pkg_crc(buf, size)` over the first `size` bytes; callers pass
`buf.take size` for the C `(buf, size)` pair. -/
def vmu_pkg_crc (buf : List Nat) : Nat := (buf.foldl vmu_crc_byte 0) &&& 0xffff

/-! ## vmu_pkg.c : eyecatch sizes and header layout -/

/-- Modelled from the spec: the eyecatch type enum of the missing header
`dc/vmu_pkg.h`, listed there in the order none / 16-bit / 256-color /
16-color; modelled as the values 0,1,2,3 matching the switch cases of
`vmu_eyecatch_size` in that order. -/
def VMUPKG_EC_NONE : Nat := 0

/-- Modelled from the spec: see `VMUPKG_EC_NONE`. -/
def VMUPKG_EC_16BIT : Nat := 1

/-- Modelled from the spec: see `VMUPKG_EC_NONE`. -/
def VMUPKG_EC_256COL : Nat := 2

/-- Modelled from the spec: see `VMUPKG_EC_NONE`. -/
def VMUPKG_EC_16COL : Nat := 3

/-- `vmu_eyecatch_size` from vmu_pkg.c lines 40-53 (`-1` on an
unrecognized type). -/
def vmu_eyecatch_size (eyecatch_type : Nat) : Int :=
  if eyecatch_type = VMUPKG_EC_NONE then 0
  else if eyecatch_type = VMUPKG_EC_16BIT then 72 * 56 * 2
  else if eyecatch_type = VMUPKG_EC_256COL then 512 + 72 * 56
  else if eyecatch_type = VMUPKG_EC_16COL then 32 + 72 * 56 / 2
  else -1

/-- Modelled from the spec: the logical container view `vmu_pkg_t` of the
missing header `dc/vmu_pkg.h`.  Description fields and the application id
are byte strings; `icon_pal` is the 16-entry palette; `icon_data`,
`eyecatch_data` and `data` stand for the C pointers together with their
implicit region sizes. -/
structure vmu_pkg where
  desc_short : List Nat
  desc_long : List Nat
  app_id : List Nat
  icon_cnt : Nat
  icon_anim_speed : Nat
  eyecatch_type : Nat
  data_len : Nat
  icon_pal : List Nat
  icon_data : List Nat
  eyecatch_data : List Nat
  data : List Nat
  deriving DecidableEq

/-- Modelled from the spec: the serialized header `vmu_hdr_t` of the missing
header `dc/vmu_pkg.h`, per the spec's byte-layout table: `desc_short`
(16 bytes, space-padded), `desc_long` (32 bytes, space-padded), `app_id`
(16 bytes, null-terminated), then 16-bit `icon_cnt`, `icon_anim_speed`,
`eyecatch_type`, `crc`, 32-bit `data_len`, 20 reserved zero bytes and the
16 x 16-bit `icon_pal`; 128 bytes in total, little-endian fields. -/
def vmu_hdr_bytes (src : vmu_pkg) (crc : Nat) : List Nat :=
  padField (cstr src.desc_short) 16 32 ++
  padField (cstr src.desc_long) 32 32 ++
  padField (cstr src.app_id) 16 0 ++
  u16le src.icon_cnt ++
  u16le src.icon_anim_speed ++
  u16le src.eyecatch_type ++
  u16le crc ++
  u32le src.data_len ++
  List.replicate 20 0 ++
  (src.icon_pal.map u16le).flatten

/-- The full serialized buffer written by `vmu_pkg_build` (vmu_pkg.c lines
74-98): header, icon frames, eyecatch image, payload, with `crc` stored in
the header's CRC field. -/
def vmu_body (src : vmu_pkg) (crc : Nat) : List Nat :=
  vmu_hdr_bytes src crc ++ src.icon_data ++ src.eyecatch_data ++ src.data

/-- `out_size` as computed by `vmu_pkg_build` (vmu_pkg.c lines 63-67). -/
def vmu_build_size (src : vmu_pkg) : Nat :=
  128 + 512 * src.icon_cnt + (vmu_eyecatch_size src.eyecatch_type).toNat + src.data_len

/-- `vmu_pkg_build` from vmu_pkg.c lines 57-108.  `none` models the `-1`
return on an unrecognized eyecatch type, taken before `*dst_size` or the
output buffer is written; otherwise the buffer is assembled with the CRC
field zero, and the CRC over the whole buffer is then stored in place. -/
def vmu_pkg_build (src : vmu_pkg) : Option (List Nat × Nat) :=
  if vmu_eyecatch_size src.eyecatch_type < 0 then none
  else some (vmu_body src (vmu_pkg_crc (vmu_body src 0)), vmu_build_size src)

/-- `total_size` as computed by `vmu_pkg_parse` (vmu_pkg.c lines 119-122):
`data_len + sizeof(vmu_hdr_t) + icon_size + ec_size`, with `ec_size`
possibly the sentinel `-1`. -/
def vmu_parse_total (data : List Nat) : Int :=
  (u32de (data.drop 72) : Int) +
    (128 + 512 * (u16de (data.drop 64) : Int) + vmu_eyecatch_size (u16de (data.drop 68)))

/-- `vmu_pkg_parse` from vmu_pkg.c lines 112-155.  Returns the parsed view
(or `none` for the `-1` CRC-mismatch return) together with the buffer as
left behind: the CRC field is zeroed for the recomputation and restored
afterwards in both branches.  Note the code performs no eyecatch-type
check; the sentinel `-1` flows into the size computation. -/
def vmu_pkg_parse (data : List Nat) : Option vmu_pkg × List Nat :=
  let icon_cnt := u16de (data.drop 64)
  let icon_size := 512 * icon_cnt
  let ec_size := vmu_eyecatch_size (u16de (data.drop 68))
  let hdr_size : Int := 128 + (icon_size : Int) + ec_size
  let crc_save := u16de (data.drop 70)
  let zeroed := setU16 data 70 0
  let crc := vmu_pkg_crc (zeroed.take (vmu_parse_total data).toNat)
  let restored := setU16 zeroed 70 crc_save
  if crc_save ≠ crc then (none, restored)
  else
    (some {
      desc_short := data.take 16 ++ [0]
      desc_long := (data.drop 16).take 32 ++ [0]
      app_id := (data.drop 48).take 16 ++ [0]
      icon_cnt := icon_cnt
      icon_anim_speed := u16de (data.drop 66)
      eyecatch_type := u16de (data.drop 68)
      data_len := u32de (data.drop 72)
      icon_pal := u16chunks ((data.drop 96).take 32)
      icon_data := (data.drop 128).take icon_size
      eyecatch_data := (data.drop (128 + icon_size)).take ec_size.toNat
      data := (data.drop hdr_size.toNat).take (u32de (data.drop 72)) }, restored)

/-- A logical view the build path can serialize exactly: description
strings fit their fields (`app_id` leaves room for its terminator) and
contain no interior NUL, numeric fields fit their wire widths, and the
three binary regions have exactly the sizes the code copies. -/
def WFpkg (v : vmu_pkg) : Prop :=
  v.desc_short.length ≤ 16 ∧ (∀ b ∈ v.desc_short, b ≠ 0) ∧
  v.desc_long.length ≤ 32 ∧ (∀ b ∈ v.desc_long, b ≠ 0) ∧
  v.app_id.length ≤ 15 ∧ (∀ b ∈ v.app_id, b ≠ 0) ∧
  v.icon_cnt < 65536 ∧ v.icon_anim_speed < 65536 ∧
  v.eyecatch_type ≤ 3 ∧ v.data_len < 4294967296 ∧
  v.icon_pal.length = 16 ∧ (∀ e ∈ v.icon_pal, e < 65536) ∧
  v.icon_data.length = 512 * v.icon_cnt ∧
  v.eyecatch_data.length = (vmu_eyecatch_size v.eyecatch_type).toNat ∧
  v.data.length = v.data_len

instance (v : vmu_pkg) : Decidable (WFpkg v) := by
  unfold WFpkg; infer_instance

/-! ## controller.c -/

/-- Raw controller condition (`cont_cond_t`, controller.c lines 22-30).
All fields are unsigned wire values. -/
structure cont_cond where
  buttons : Nat
  rtrig : Nat
  ltrig : Nat
  joyx : Nat
  joyy : Nat
  joy2x : Nat
  joy2y : Nat
  deriving DecidableEq

/-- Modelled from the spec: the normalized state `cont_state_t` of the
missing header `dc/maple/controller.h` — active-high buttons, unsigned
triggers, signed centered axes. -/
structure cont_state where
  buttons : Nat
  ltrig : Nat
  rtrig : Nat
  joyx : Int
  joyy : Int
  joy2x : Int
  joy2y : Int
  deriving DecidableEq

/-- A callback registration (`cont_callback_params_t`, controller.c lines
32-42).  The function pointer `cb` and the worker thread are modelled by
numeric identifiers; `cb = 0` models the NULL callback. -/
structure cont_callback_params where
  cb : Nat
  addr : Nat
  btns : Nat
  worker : Nat
  cur_addr : Nat
  cur_btns : Nat
  deriving DecidableEq

/-- The normalization performed by `cont_reply` (controller.c lines
172-179): buttons complemented as a 32-bit int and masked to 16 bits,
triggers passed through, axes recentered by subtracting 128. -/
def cont_decode (raw : cont_cond) : cont_state :=
  { buttons := (raw.buttons ^^^ 0xffffffff) &&& 0xffff
    ltrig := raw.ltrig
    rtrig := raw.rtrig
    joyx := (raw.joyx : Int) - 128
    joyy := (raw.joyy : Int) - 128
    joy2x := (raw.joy2x : Int) - 128
    joy2y := (raw.joy2y : Int) - 128 }

/-- The removal predicate of `cont_btn_callback_del` (controller.c lines
74-79): with NULL params remove everything; otherwise remove entries whose
(addr, btns) pair matches, and among those, all of them when the requested
callback is NULL, else only the exact callback. -/
def shouldDel (params : Option cont_callback_params) (c : cont_callback_params) : Bool :=
  match params with
  | none => true
  | some p => (p.addr == c.addr && p.btns == c.btns) && (p.cb == 0 || p.cb == c.cb)

/-- `cont_btn_callback_del` (controller.c lines 69-87): returns the list
after removal together with the workers destroyed (each removed entry's
worker is destroyed before the function returns). -/
def cont_btn_callback_del (params : Option cont_callback_params)
    (l : List cont_callback_params) : List cont_callback_params × List Nat :=
  (l.filter (fun c => !(shouldDel params c)),
   (l.filter (fun c => shouldDel params c)).map (fun c => c.worker))

/-- `cont_btn_cb_thread` (controller.c lines 89-92): the pair the worker
passes to the registration's callback when woken. -/
def cont_btn_cb_thread (params : cont_callback_params) : Nat × Nat :=
  (params.addr, params.btns)

/-- The heap record filled in by `cont_btn_callback` before the NULL-cb
check (controller.c lines 98-104): only `addr`, `btns` and `cb` are
assigned; the remaining fields model the zero-initialized allocation. -/
def null_cb_params (addr btns : Nat) : cont_callback_params :=
  { cb := 0, addr := addr, btns := btns, worker := 0, cur_addr := 0, cur_btns := 0 }

/-- `cont_btn_callback` (controller.c lines 95-138).  `mallocOk` and
`workerOk` model the success of `malloc` and `thd_worker_create_ex`,
`wid` the identifier of the created worker.  Returns the C return code,
the new list, and the workers destroyed during the call. -/
def cont_btn_callback (addr btns cb : Nat) (mallocOk workerOk : Bool) (wid : Nat)
    (l : List cont_callback_params) : Int × List cont_callback_params × List Nat :=
  if !mallocOk then (-1, l, [])
  else if cb == 0 then
    let r := cont_btn_callback_del (some (null_cb_params addr btns)) l
    (0, r.1, r.2)
  else if !workerOk then (-1, l, [])
  else if addr != 0 then
    (0, { cb := cb, addr := addr, btns := btns, worker := wid,
          cur_addr := 0, cur_btns := 0 } :: l, [])
  else
    (0, l ++ [{ cb := cb, addr := addr, btns := btns, worker := wid,
                cur_addr := 0, cur_btns := 0 }], [])

/-- The match condition of the registry scan in `cont_reply` (controller.c
lines 188-191): the registration is a wildcard or names this device, and
the current buttons contain the required mask. -/
def cont_match (dev_addr buttons : Nat) (c : cont_callback_params) : Bool :=
  (c.addr == 0 || c.addr == dev_addr) && ((buttons &&& c.btns) == c.btns)

/-- The registry scan of `cont_reply` (controller.c lines 187-197): each
matching registration records the current (address, buttons) pair in its
`cur_addr`/`cur_btns` fields and its worker is woken.  Returns the updated
list and the woken workers in list order. -/
def cont_scan (dev_addr buttons : Nat) (l : List cont_callback_params) :
    List cont_callback_params × List Nat :=
  (l.map (fun c => if cont_match dev_addr buttons c then
      { c with cur_addr := dev_addr, cur_btns := buttons } else c),
   (l.filter (fun c => cont_match dev_addr buttons c)).map (fun c => c.worker))

/-- The accepted-response path of `cont_reply` (controller.c lines
171-199).  `lockHeld` models `mutex_trylock` failing because a concurrent
list mutation holds `btn_cbs_mtx`: the normalized state is still published
but the scan is skipped.  Returns the published state, the registry after
the scan, and the woken workers. -/
def cont_reply (lockHeld : Bool) (dev_addr : Nat) (raw : cont_cond)
    (l : List cont_callback_params) : cont_state × List cont_callback_params × List Nat :=
  let cooked := cont_decode raw
  if lockHeld then (cooked, l, [])
  else (cooked, (cont_scan dev_addr cooked.buttons l).1, (cont_scan dev_addr cooked.buttons l).2)

/-! ## Concrete sample inputs for witnesses and counterexamples -/

/-- The spec section 8 scenario: one icon, no eyecatch, payload `[1,2,3,4]`. -/
def pkgA : vmu_pkg :=
  { desc_short := [65]
    desc_long := [66]
    app_id := [67]
    icon_cnt := 1
    icon_anim_speed := 0
    eyecatch_type := 0
    data_len := 4
    icon_pal := List.replicate 16 0
    icon_data := List.replicate 512 0
    eyecatch_data := []
    data := [1, 2, 3, 4] }

/-- A 127-byte buffer whose header claims the unrecognized eyecatch type 4,
zero icons and an empty payload; its CRC field holds the CRC the parser
will recompute over `total_size = 128 + 0 + (-1) + 0 = 127` bytes. -/
def badTypeBuf : List Nat :=
  List.replicate 68 0 ++ [4, 0] ++
    u16le (vmu_pkg_crc (List.replicate 68 0 ++ [4, 0] ++ [0, 0] ++ List.replicate 55 0)) ++
    List.replicate 55 0

/-- A 128-byte buffer of zeros except for a stored CRC of 1: the CRC
recomputed over the zeroed buffer is 0, so parsing must fail. -/
def mismatchBuf : List Nat :=
  List.replicate 70 0 ++ u16le 1 ++ List.replicate 56 0

/-- A wildcard registration: any device address, mask 0b101, worker id 7. -/
def regW : cont_callback_params :=
  { cb := 1, addr := 0, btns := 5, worker := 7, cur_addr := 0, cur_btns := 0 }

/-- A sample raw condition record. -/
def rawA : cont_cond :=
  { buttons := 5, rtrig := 10, ltrig := 20, joyx := 0, joyy := 128, joy2x := 255, joy2y := 7 }

/-- The section 8 scenario view with an unrecognized eyecatch type. -/
def pkgBad : vmu_pkg := { pkgA with eyecatch_type := 4 }

/-! ## Generic helper lemmas -/

theorem padField_length (s : List Nat) (w fill : Nat) : (padField s w fill).length = w := by
  simp [padField]; omega

theorem u16le_length (v : Nat) : (u16le v).length = 2 := rfl

theorem u32le_length (v : Nat) : (u32le v).length = 4 := rfl

theorem flatten_u16le_length (pal : List Nat) : ((pal.map u16le).flatten).length = 2 * pal.length := by
  induction pal with
  | nil => rfl
  | cons x xs ih => simp [u16le, ih]; omega

theorem cstr_eq_self (s : List Nat) (h : ∀ b ∈ s, b ≠ 0) : cstr s = s := by
  unfold cstr
  induction s with
  | nil => rfl
  | cons x xs ih =>
    have hx : x ≠ 0 := h x (List.mem_cons_self x xs)
    simp only [List.takeWhile, show (x != 0) = true by simpa using hx]
    exact congrArg (x :: ·) (ih fun b hb => h b (List.mem_cons_of_mem _ hb))

theorem padField_eq (s : List Nat) (w fill : Nat) (h : s.length ≤ w) :
    padField s w fill = s ++ List.replicate (w - s.length) fill := by
  simp [padField, List.take_of_length_le h]

theorem u16de_u16le (x : Nat) (r : List Nat) : u16de (u16le x ++ r) = x % 65536 := by
  simp [u16de, u16le, byteD]; omega

theorem u32de_u32le (x : Nat) (r : List Nat) : u32de (u32le x ++ r) = x % 4294967296 := by
  simp [u32de, u32le, byteD]; omega

theorem u16chunks_flatten (pal : List Nat) (h : ∀ e ∈ pal, e < 65536) :
    u16chunks ((pal.map u16le).flatten) = pal := by
  induction pal with
  | nil => rfl
  | cons x xs ih =>
    have hx : x < 65536 := h x (List.mem_cons_self x xs)
    have hrest := ih fun e he => h e (List.mem_cons_of_mem _ he)
    simp only [List.map_cons, List.flatten_cons, u16le, List.cons_append, List.nil_append,
      u16chunks, hrest]
    congr 1
    omega

theorem list_set_append (a b : List Nat) (k v : Nat) :
    (a ++ b).set (a.length + k) v = a ++ b.set k v := by
  induction a with
  | nil => simp
  | cons x xs ih =>
    have hidx : (x :: xs).length + k = (xs.length + k) + 1 := by simp; omega
    rw [hidx]
    exact congrArg (x :: ·) ih

theorem setU16_append (a b : List Nat) (n v : Nat) (h : a.length = n) :
    setU16 (a ++ b) n v = a ++ setU16 b 0 v := by
  subst h
  unfold setU16
  have h1 := list_set_append a b 0 (v % 256)
  rw [Nat.add_zero] at h1
  rw [h1, list_set_append a (b.set 0 (v % 256)) 1 (v / 256 % 256)]

theorem setU16_cons2 (c0 c1 v : Nat) (r : List Nat) :
    setU16 (c0 :: c1 :: r) 0 v = u16le v ++ r := rfl

theorem vmu_crc_lt (buf : List Nat) : vmu_pkg_crc buf < 65536 := by
  have : vmu_pkg_crc buf ≤ 0xffff := Nat.and_le_right
  omega

theorem vmu_crc_round_zero : vmu_crc_round 0 = 0 := rfl

theorem vmu_crc_byte_zero : vmu_crc_byte 0 0 = 0 := rfl

theorem foldl_crc_zeros (n : Nat) : List.foldl vmu_crc_byte 0 (List.replicate n 0) = 0 := by
  induction n with
  | zero => rfl
  | succ m ih => simpa [List.replicate_succ, vmu_crc_byte_zero] using ih

theorem vmu_crc_zeros (n : Nat) : vmu_pkg_crc (List.replicate n 0) = 0 := by
  simp [vmu_pkg_crc, foldl_crc_zeros]

/-! ## Layout lemmas for the serialized container -/

theorem vmu_body_split (v : vmu_pkg) (c : Nat) :
    vmu_body v c =
      (padField (cstr v.desc_short) 16 32 ++ padField (cstr v.desc_long) 32 32 ++
       padField (cstr v.app_id) 16 0 ++ u16le v.icon_cnt ++ u16le v.icon_anim_speed ++
       u16le v.eyecatch_type) ++
      (u16le c ++ (u32le v.data_len ++ (List.replicate 20 0 ++
        ((v.icon_pal.map u16le).flatten ++ (v.icon_data ++ (v.eyecatch_data ++ v.data)))))) := by
  simp [vmu_body, vmu_hdr_bytes, List.append_assoc]

theorem vmu_body_pre_length (v : vmu_pkg) :
    (padField (cstr v.desc_short) 16 32 ++ padField (cstr v.desc_long) 32 32 ++
     padField (cstr v.app_id) 16 0 ++ u16le v.icon_cnt ++ u16le v.icon_anim_speed ++
     u16le v.eyecatch_type).length = 70 := by
  simp [padField_length, u16le]

theorem vmu_body_set_crc (v : vmu_pkg) (c y : Nat) :
    setU16 (vmu_body v c) 70 y = vmu_body v y := by
  rw [vmu_body_split v c, setU16_append _ _ _ _ (vmu_body_pre_length v),
    show u16le c ++ (u32le v.data_len ++ (List.replicate 20 0 ++
      ((v.icon_pal.map u16le).flatten ++ (v.icon_data ++ (v.eyecatch_data ++ v.data))))) =
      (c % 256) :: (c / 256 % 256) :: (u32le v.data_len ++ (List.replicate 20 0 ++
      ((v.icon_pal.map u16le).flatten ++ (v.icon_data ++ (v.eyecatch_data ++ v.data)))))
      from rfl,
    setU16_cons2, vmu_body_split v y]

theorem vmu_body_crc_save (v : vmu_pkg) (c : Nat) :
    u16de ((vmu_body v c).drop 70) = c % 65536 := by
  rw [vmu_body_split v c, List.drop_left' (vmu_body_pre_length v), u16de_u16le]

theorem vmu_body_length (v : vmu_pkg) (hpal : v.icon_pal.length = 16)
    (hicon : v.icon_data.length = 512 * v.icon_cnt)
    (hec : v.eyecatch_data.length = (vmu_eyecatch_size v.eyecatch_type).toNat)
    (hdata : v.data.length = v.data_len) :
    ∀ c, (vmu_body v c).length = vmu_build_size v := by
  intro c
  simp only [vmu_body, vmu_hdr_bytes, List.length_append, padField_length, u16le_length,
    u32le_length, flatten_u16le_length, List.length_replicate, hpal, hicon, hec, hdata,
    vmu_build_size]

theorem vmu_ec_nonneg (t : Nat) (h : t ≤ 3) : 0 ≤ vmu_eyecatch_size t := by
  interval_cases t <;> decide

theorem drop_chain (k : Nat) {B R1 R2 : List Nat} {n m : Nat}
    (h1 : B.drop n = R1 ++ R2) (hlen : R1.length = m) (hk : n + m = k) :
    B.drop k = R2 := by
  subst hk
  have h2 := congrArg (List.drop m) h1
  rw [List.drop_drop] at h2
  rwa [List.drop_left' hlen] at h2

theorem vmu_parse_build (v : vmu_pkg) (h : WFpkg v) :
    vmu_pkg_parse (vmu_body v (vmu_pkg_crc (vmu_body v 0))) =
      (some { v with
          desc_short := v.desc_short ++ List.replicate (16 - v.desc_short.length) 32 ++ [0]
          desc_long := v.desc_long ++ List.replicate (32 - v.desc_long.length) 32 ++ [0]
          app_id := v.app_id ++ List.replicate (16 - v.app_id.length) 0 ++ [0] },
       vmu_body v (vmu_pkg_crc (vmu_body v 0))) := by
  obtain ⟨hds, hdsz, hdl, hdlz, hai, haiz, hcnt, hanim, hty, hdlen, hpal, hpale,
    hicon, hec, hdata⟩ := h
  generalize hcdef : vmu_pkg_crc (vmu_body v 0) = c
  have hclt : c < 65536 := hcdef ▸ vmu_crc_lt _
  have hecn : 0 ≤ vmu_eyecatch_size v.eyecatch_type := vmu_ec_nonneg _ hty
  have hB : vmu_body v c =
      padField (cstr v.desc_short) 16 32 ++ (padField (cstr v.desc_long) 32 32 ++
      (padField (cstr v.app_id) 16 0 ++ (u16le v.icon_cnt ++ (u16le v.icon_anim_speed ++
      (u16le v.eyecatch_type ++ (u16le c ++ (u32le v.data_len ++ (List.replicate 20 0 ++
      ((v.icon_pal.map u16le).flatten ++
        (v.icon_data ++ (v.eyecatch_data ++ v.data))))))))))) := by
    simp [vmu_body, vmu_hdr_bytes, List.append_assoc]
  have hfl : ((v.icon_pal.map u16le).flatten).length = 32 := by
    rw [flatten_u16le_length, hpal]
  have d0 : (vmu_body v c).drop 0 =
      padField (cstr v.desc_short) 16 32 ++ (padField (cstr v.desc_long) 32 32 ++
      (padField (cstr v.app_id) 16 0 ++ (u16le v.icon_cnt ++ (u16le v.icon_anim_speed ++
      (u16le v.eyecatch_type ++ (u16le c ++ (u32le v.data_len ++ (List.replicate 20 0 ++
      ((v.icon_pal.map u16le).flatten ++
        (v.icon_data ++ (v.eyecatch_data ++ v.data))))))))))) := by
    rw [List.drop_zero, hB]
  have d16 := drop_chain 16 d0 (padField_length _ 16 _) (by norm_num)
  have d48 := drop_chain 48 d16 (padField_length _ 32 _) (by norm_num)
  have d64 := drop_chain 64 d48 (padField_length _ 16 _) (by norm_num)
  have d66 := drop_chain 66 d64 (u16le_length _) (by norm_num)
  have d68 := drop_chain 68 d66 (u16le_length _) (by norm_num)
  have d70 := drop_chain 70 d68 (u16le_length _) (by norm_num)
  have d72 := drop_chain 72 d70 (u16le_length _) (by norm_num)
  have d76 := drop_chain 76 d72 (u32le_length _) (by norm_num)
  have d96 := drop_chain 96 d76 (List.length_replicate 20 0) (by norm_num)
  have d128 := drop_chain 128 d96 hfl (by norm_num)
  have dIcon := drop_chain (128 + 512 * v.icon_cnt) d128 hicon rfl
  have dEc := drop_chain (128 + 512 * v.icon_cnt + (vmu_eyecatch_size v.eyecatch_type).toNat)
    dIcon hec rfl
  have t0 : (vmu_body v c).take 16 = padField (cstr v.desc_short) 16 32 := by
    rw [hB]; exact List.take_left' (padField_length _ 16 _)
  have t16 : ((vmu_body v c).drop 16).take 32 = padField (cstr v.desc_long) 32 32 := by
    rw [d16]; exact List.take_left' (padField_length _ 32 _)
  have t48 : ((vmu_body v c).drop 48).take 16 = padField (cstr v.app_id) 16 0 := by
    rw [d48]; exact List.take_left' (padField_length _ 16 _)
  have tpal : ((vmu_body v c).drop 96).take 32 = (v.icon_pal.map u16le).flatten := by
    rw [d96]; exact List.take_left' hfl
  have ticon : ((vmu_body v c).drop 128).take (512 * v.icon_cnt) = v.icon_data := by
    rw [d128]; exact List.take_left' hicon
  have tec : ((vmu_body v c).drop (128 + 512 * v.icon_cnt)).take
      (vmu_eyecatch_size v.eyecatch_type).toNat = v.eyecatch_data := by
    rw [dIcon]; exact List.take_left' hec
  have tdata : ((vmu_body v c).drop
      (128 + 512 * v.icon_cnt + (vmu_eyecatch_size v.eyecatch_type).toNat)).take
      v.data_len = v.data := by
    rw [dEc, ← hdata]; exact List.take_length _
  have hcnt1 : u16de ((vmu_body v c).drop 64) = v.icon_cnt := by
    rw [d64, u16de_u16le]; exact Nat.mod_eq_of_lt hcnt
  have hanim1 : u16de ((vmu_body v c).drop 66) = v.icon_anim_speed := by
    rw [d66, u16de_u16le]; exact Nat.mod_eq_of_lt hanim
  have hty1 : u16de ((vmu_body v c).drop 68) = v.eyecatch_type := by
    rw [d68, u16de_u16le]; exact Nat.mod_eq_of_lt (by omega)
  have hcrcs : u16de ((vmu_body v c).drop 70) = c := by
    rw [d70, u16de_u16le]; exact Nat.mod_eq_of_lt hclt
  have hdlen1 : u32de ((vmu_body v c).drop 72) = v.data_len := by
    rw [d72, u32de_u32le]; exact Nat.mod_eq_of_lt hdlen
  have hpalv : u16chunks (((vmu_body v c).drop 96).take 32) = v.icon_pal := by
    rw [tpal]; exact u16chunks_flatten _ hpale
  have hdesc1 : (vmu_body v c).take 16 =
      v.desc_short ++ List.replicate (16 - v.desc_short.length) 32 := by
    rw [cstr_eq_self v.desc_short hdsz, padField_eq v.desc_short 16 32 hds] at t0
    exact t0
  have hdesc2 : ((vmu_body v c).drop 16).take 32 =
      v.desc_long ++ List.replicate (32 - v.desc_long.length) 32 := by
    rw [cstr_eq_self v.desc_long hdlz, padField_eq v.desc_long 32 32 hdl] at t16
    exact t16
  have hdesc3 : ((vmu_body v c).drop 48).take 16 =
      v.app_id ++ List.replicate (16 - v.app_id.length) 0 := by
    rw [cstr_eq_self v.app_id haiz, padField_eq v.app_id 16 0 (by omega)] at t48
    exact t48
  have htot : (vmu_parse_total (vmu_body v c)).toNat = vmu_build_size v := by
    unfold vmu_parse_total
    rw [hcnt1, hty1, hdlen1]
    unfold vmu_build_size
    omega
  have hlen0 := vmu_body_length v hpal hicon hec hdata 0
  have htake : (vmu_body v 0).take (vmu_build_size v) = vmu_body v 0 := by
    rw [← hlen0]; exact List.take_length _
  have hhdr : ((128 : Int) + ((512 * v.icon_cnt : Nat) : Int) +
      vmu_eyecatch_size v.eyecatch_type).toNat =
      128 + 512 * v.icon_cnt + (vmu_eyecatch_size v.eyecatch_type).toNat := by
    omega
  simp only [vmu_pkg_parse]
  rw [hcnt1, hanim1, hty1, hcrcs, hdlen1]
  rw [vmu_body_set_crc v c 0, htot, htake, hcdef]
  rw [if_neg (not_not_intro rfl)]
  rw [vmu_body_set_crc v 0 c]
  rw [hhdr, hdesc1, hdesc2, hdesc3, hpalv, ticon, tec, tdata]

/-! ## Parse failure behaviour -/

theorem setU16_restore (l : List Nat) : ∀ i : Nat, (∀ b ∈ l, b < 256) →
    setU16 (setU16 l i 0) i (u16de (l.drop i)) = l := by
  induction l with
  | nil => intro i _; rfl
  | cons x xs ih =>
    intro i h
    have hx : x < 256 := h x (List.mem_cons_self x xs)
    have hxs : ∀ b ∈ xs, b < 256 := fun b hb => h b (List.mem_cons_of_mem _ hb)
    match i with
    | 0 =>
      match xs with
      | [] =>
        show setU16 (setU16 [x] 0 0) 0 (u16de [x]) = [x]
        simp [setU16, u16de, byteD]
        omega
      | y :: ys =>
        have hy : y < 256 := hxs y (List.mem_cons_self y ys)
        show setU16 (setU16 (x :: y :: ys) 0 0) 0 (u16de (x :: y :: ys)) = x :: y :: ys
        simp [setU16, u16de, byteD]
        constructor <;> omega
    | i + 1 =>
      show x :: setU16 (setU16 xs i 0) i (u16de (xs.drop i)) = x :: xs
      rw [ih i hxs]

theorem vmu_parse_mismatch (data : List Nat) (hb : ∀ b ∈ data, b < 256)
    (hne : u16de (data.drop 70) ≠
      vmu_pkg_crc ((setU16 data 70 0).take (vmu_parse_total data).toNat)) :
    vmu_pkg_parse data = (none, data) := by
  simp only [vmu_pkg_parse]
  rw [if_pos hne, setU16_restore data 70 hb]

theorem vmu_parse_isSome_iff (data : List Nat) :
    (vmu_pkg_parse data).1.isSome = true ↔
      u16de (data.drop 70) =
        vmu_pkg_crc ((setU16 data 70 0).take (vmu_parse_total data).toNat) := by
  simp only [vmu_pkg_parse]
  by_cases hc : u16de (data.drop 70) =
      vmu_pkg_crc ((setU16 data 70 0).take (vmu_parse_total data).toNat)
  · rw [if_neg (not_not_intro hc)]
    simpa using hc
  · rw [if_pos hc]
    simpa using hc

/-! ## The unrecognized-eyecatch-type buffer accepted by parse -/

theorem setU16_u16le (x y : Nat) (r : List Nat) :
    setU16 (u16le x ++ r) 0 y = u16le y ++ r := rfl

theorem badTypeBuf_pre : badTypeBuf = (List.replicate 68 0 ++ [4, 0]) ++
    (u16le (vmu_pkg_crc (List.replicate 68 0 ++ [4, 0] ++ [0, 0] ++ List.replicate 55 0)) ++
     List.replicate 55 0) := by
  simp [badTypeBuf, List.append_assoc]

theorem badTypeBuf_pre_length : (List.replicate 68 (0 : Nat) ++ [4, 0]).length = 70 := by
  simp

theorem badTypeBuf_split : badTypeBuf = List.replicate 64 0 ++ (List.replicate 4 0 ++ ([4, 0] ++
    (u16le (vmu_pkg_crc (List.replicate 68 0 ++ [4, 0] ++ [0, 0] ++ List.replicate 55 0)) ++
     List.replicate 55 0))) := by
  rw [badTypeBuf, show List.replicate 68 (0 : Nat) =
    List.replicate 64 (0 : Nat) ++ List.replicate 4 (0 : Nat) by
      rw [← List.replicate_add]]
  simp [List.append_assoc]

theorem badTypeBuf_drop64 : u16de (badTypeBuf.drop 64) = 0 := by
  have b0 := badTypeBuf_split
  rw [show badTypeBuf.drop 64 = (badTypeBuf.drop 0).drop 64 by rw [List.drop_zero],
    List.drop_zero, b0, List.drop_left' (List.length_replicate 64 0)]
  simp [u16de, byteD, List.replicate_succ]

theorem badTypeBuf_drop68 : u16de (badTypeBuf.drop 68) = 4 := by
  have b0 : badTypeBuf.drop 0 = List.replicate 64 0 ++ (List.replicate 4 0 ++ ([4, 0] ++
      (u16le (vmu_pkg_crc (List.replicate 68 0 ++ [4, 0] ++ [0, 0] ++ List.replicate 55 0)) ++
       List.replicate 55 0))) := by
    rw [List.drop_zero]; exact badTypeBuf_split
  have b64 := drop_chain 64 b0 (List.length_replicate 64 0) (by norm_num)
  have b68 := drop_chain 68 b64 (List.length_replicate 4 0) (by norm_num)
  rw [b68]
  simp [u16de, byteD]

theorem badTypeBuf_drop70 : u16de (badTypeBuf.drop 70) =
    vmu_pkg_crc (List.replicate 68 0 ++ [4, 0] ++ [0, 0] ++ List.replicate 55 0) := by
  rw [badTypeBuf_pre, List.drop_left' badTypeBuf_pre_length, u16de_u16le]
  exact Nat.mod_eq_of_lt (vmu_crc_lt _)

theorem badTypeBuf_drop72 : u32de (badTypeBuf.drop 72) = 0 := by
  have b70 : badTypeBuf.drop 70 =
      u16le (vmu_pkg_crc (List.replicate 68 0 ++ [4, 0] ++ [0, 0] ++ List.replicate 55 0)) ++
      List.replicate 55 0 := by
    rw [badTypeBuf_pre]; exact List.drop_left' badTypeBuf_pre_length
  have b72 := drop_chain 72 b70 (u16le_length _) (by norm_num)
  rw [b72]
  decide

theorem badTypeBuf_zeroed : setU16 badTypeBuf 70 0 =
    List.replicate 68 0 ++ [4, 0] ++ [0, 0] ++ List.replicate 55 0 := by
  rw [badTypeBuf_pre, setU16_append _ _ _ _ badTypeBuf_pre_length, setU16_u16le]
  simp [u16le, List.append_assoc]

theorem badTypeBuf_total : (vmu_parse_total badTypeBuf).toNat = 127 := by
  unfold vmu_parse_total
  rw [badTypeBuf_drop64, badTypeBuf_drop68, badTypeBuf_drop72]
  decide

theorem badTypeBuf_zeroed_length :
    (List.replicate 68 (0 : Nat) ++ [4, 0] ++ [0, 0] ++ List.replicate 55 0).length = 127 := by
  simp

theorem badTypeBuf_parse_isSome : (vmu_pkg_parse badTypeBuf).1.isSome = true := by
  rw [vmu_parse_isSome_iff, badTypeBuf_drop70, badTypeBuf_zeroed, badTypeBuf_total,
    ← badTypeBuf_zeroed_length, List.take_length]

/-! ## The corrupted-CRC buffer rejected by parse -/

theorem mismatchBuf_pre : mismatchBuf = List.replicate 70 0 ++
    (u16le 1 ++ List.replicate 56 0) := by
  simp [mismatchBuf, List.append_assoc]

theorem mismatchBuf_split : mismatchBuf = List.replicate 64 0 ++ (List.replicate 4 0 ++
    (List.replicate 2 0 ++ (u16le 1 ++ List.replicate 56 0))) := by
  rw [mismatchBuf, show List.replicate 70 (0 : Nat) =
    List.replicate 64 (0 : Nat) ++ (List.replicate 4 (0 : Nat) ++ List.replicate 2 (0 : Nat)) by
      rw [← List.replicate_add, ← List.replicate_add]]
  simp [List.append_assoc]

theorem mismatchBuf_drop64 : u16de (mismatchBuf.drop 64) = 0 := by
  rw [show mismatchBuf.drop 64 = (mismatchBuf.drop 0).drop 64 by rw [List.drop_zero],
    List.drop_zero, mismatchBuf_split, List.drop_left' (List.length_replicate 64 0)]
  simp [u16de, byteD, List.replicate_succ]

theorem mismatchBuf_drop68 : u16de (mismatchBuf.drop 68) = 0 := by
  have b0 : mismatchBuf.drop 0 = List.replicate 64 0 ++ (List.replicate 4 0 ++
      (List.replicate 2 0 ++ (u16le 1 ++ List.replicate 56 0))) := by
    rw [List.drop_zero]; exact mismatchBuf_split
  have b64 := drop_chain 64 b0 (List.length_replicate 64 0) (by norm_num)
  have b68 := drop_chain 68 b64 (List.length_replicate 4 0) (by norm_num)
  rw [b68]
  simp [u16de, byteD, List.replicate_succ]

theorem mismatchBuf_drop70 : u16de (mismatchBuf.drop 70) = 1 := by
  rw [mismatchBuf_pre, List.drop_left' (List.length_replicate 70 0)]
  simp [u16de, u16le, byteD]

theorem mismatchBuf_drop72 : u32de (mismatchBuf.drop 72) = 0 := by
  have b70 : mismatchBuf.drop 70 = u16le 1 ++ List.replicate 56 0 := by
    rw [mismatchBuf_pre]; exact List.drop_left' (List.length_replicate 70 0)
  have b72 := drop_chain 72 b70 (u16le_length _) (by norm_num)
  rw [b72]
  decide

theorem mismatchBuf_zeroed : setU16 mismatchBuf 70 0 = List.replicate 128 0 := by
  rw [mismatchBuf_pre, setU16_append _ _ _ _ (List.length_replicate 70 0), setU16_u16le,
    show u16le 0 = List.replicate 2 (0 : Nat) by decide,
    ← List.replicate_add, ← List.replicate_add]

theorem mismatchBuf_total : (vmu_parse_total mismatchBuf).toNat = 128 := by
  unfold vmu_parse_total
  rw [mismatchBuf_drop64, mismatchBuf_drop68, mismatchBuf_drop72]
  decide

theorem mismatchBuf_ne : u16de (mismatchBuf.drop 70) ≠
    vmu_pkg_crc ((setU16 mismatchBuf 70 0).take (vmu_parse_total mismatchBuf).toNat) := by
  rw [mismatchBuf_drop70, mismatchBuf_zeroed, mismatchBuf_total, List.take_replicate,
    show min 128 128 = 128 by norm_num, vmu_crc_zeros]
  norm_num

/-! ## Controller helper lemmas -/

theorem xor32_and16 (x : Nat) (h : x < 65536) :
    (x ^^^ 0xffffffff) &&& 0xffff = x ^^^ 0xffff := by
  apply Nat.eq_of_testBit_eq
  intro i
  rw [Nat.testBit_and, Nat.testBit_xor, Nat.testBit_xor,
    show (0xffff : Nat) = 2 ^ 16 - 1 by norm_num,
    show (0xffffffff : Nat) = 2 ^ 32 - 1 by norm_num,
    Nat.testBit_two_pow_sub_one, Nat.testBit_two_pow_sub_one]
  by_cases h16 : i < 16
  · have h32 : i < 32 := by omega
    simp [h16, h32]
  · have hpow : (65536 : Nat) ≤ 2 ^ i := by
      calc (65536 : Nat) = 2 ^ 16 := by norm_num
        _ ≤ 2 ^ i := Nat.pow_le_pow_right (by norm_num) (by omega)
    have hx : x.testBit i = false := Nat.testBit_lt_two_pow (lt_of_lt_of_le h hpow)
    by_cases h32 : i < 32 <;> simp [h16, h32, hx]

theorem shouldDel_null_cb (addr btns : Nat) (c : cont_callback_params) :
    shouldDel (some (null_cb_params addr btns)) c = (addr == c.addr && btns == c.btns) := by
  simp [shouldDel, null_cb_params]

theorem cont_del_none (l : List cont_callback_params) :
    cont_btn_callback_del none l = ([], l.map (fun c => c.worker)) := by
  simp [cont_btn_callback_del, shouldDel]

/-! ## Claims -/

/-- Claim C1 (code bug evidence): the scan records the winning pair
(cur_addr, cur_btns) = (1, 7) in the matched registration and wakes its
worker, but the worker body `cont_btn_cb_thread` hands the sink the
configured pair (params->addr, params->btns) = (0, 5), not the recorded
one; the recorded fields are written by the scan and never read. -/
theorem C1_sink_gets_configured_pair :
    (cont_scan 1 7 [regW]).1 =
      [{ cb := 1, addr := 0, btns := 5, worker := 7, cur_addr := 1, cur_btns := 7 }] ∧
    (cont_scan 1 7 [regW]).2 = [7] ∧
    cont_btn_cb_thread
      { cb := 1, addr := 0, btns := 5, worker := 7, cur_addr := 1, cur_btns := 7 } = (0, 5) ∧
    ((0, 5) : Nat × Nat) ≠ (1, 7) := by
  decide

/-- Claim C2 counterexample: the eyecatch sizes computed by the code for
the 256-color and 16-color types are 4544 and 2048 bytes, not the 4616 and
4528 bytes the claim states. -/
theorem C2_eyecatch_size_counterexample :
    vmu_eyecatch_size VMUPKG_EC_256COL ≠ 4616 ∧ vmu_eyecatch_size VMUPKG_EC_16COL ≠ 4528 := by
  decide

/-- Claim C2 (amended): eyecatch sizes are 0, 8064, 4544 and 2048 bytes
for the four types, and for every well-formed view the built buffer's
reported and actual size equal header (128) + 512*icon_cnt + eyecatch
size + data_len. -/
theorem C2_sizes_and_total (v : vmu_pkg) (h : WFpkg v) :
    vmu_eyecatch_size VMUPKG_EC_NONE = 0 ∧
    vmu_eyecatch_size VMUPKG_EC_16BIT = 8064 ∧
    vmu_eyecatch_size VMUPKG_EC_256COL = 4544 ∧
    vmu_eyecatch_size VMUPKG_EC_16COL = 2048 ∧
    vmu_pkg_build v = some (vmu_body v (vmu_pkg_crc (vmu_body v 0)),
      128 + 512 * v.icon_cnt + (vmu_eyecatch_size v.eyecatch_type).toNat + v.data_len) ∧
    (vmu_body v (vmu_pkg_crc (vmu_body v 0))).length =
      128 + 512 * v.icon_cnt + (vmu_eyecatch_size v.eyecatch_type).toNat + v.data_len := by
  obtain ⟨-, -, -, -, -, -, -, -, hty, -, hpal, -, hicon, hec, hdata⟩ := h
  refine ⟨by decide, by decide, by decide, by decide, ?_, ?_⟩
  · unfold vmu_pkg_build
    rw [if_neg (not_lt.mpr (vmu_ec_nonneg _ hty))]
    rfl
  · exact vmu_body_length v hpal hicon hec hdata _

/-- Claim C2 witness at the section 8 scenario view. -/
theorem C2_sizes_and_total_witness :
    WFpkg pkgA ∧
    (vmu_eyecatch_size VMUPKG_EC_NONE = 0 ∧
     vmu_eyecatch_size VMUPKG_EC_16BIT = 8064 ∧
     vmu_eyecatch_size VMUPKG_EC_256COL = 4544 ∧
     vmu_eyecatch_size VMUPKG_EC_16COL = 2048 ∧
     vmu_pkg_build pkgA = some (vmu_body pkgA (vmu_pkg_crc (vmu_body pkgA 0)),
       128 + 512 * pkgA.icon_cnt + (vmu_eyecatch_size pkgA.eyecatch_type).toNat +
         pkgA.data_len) ∧
     (vmu_body pkgA (vmu_pkg_crc (vmu_body pkgA 0))).length =
       128 + 512 * pkgA.icon_cnt + (vmu_eyecatch_size pkgA.eyecatch_type).toNat +
         pkgA.data_len) :=
  ⟨by decide, C2_sizes_and_total pkgA (by decide)⟩

/-- Claim C3 counterexample: a buffer whose header names the unrecognized
eyecatch type 4 is accepted by `vmu_pkg_parse` (which performs no
eyecatch-type check and folds the sentinel -1 into its size computation):
the parse succeeds and populates the view. -/
theorem C3_parse_accepts_unrecognized_type :
    vmu_eyecatch_size (u16de (badTypeBuf.drop 68)) = -1 ∧
    (vmu_pkg_parse badTypeBuf).1.isSome = true := by
  constructor
  · rw [badTypeBuf_drop68]
    decide
  · exact badTypeBuf_parse_isSome

/-- Claim C3 (amended): build rejects an unrecognized eyecatch type before
writing the output buffer or size, but parse performs no such check: its
success is equivalent to the CRC comparison alone, over the size computed
with the sentinel -1 folded in. -/
theorem C3_build_rejects_parse_without_check :
    (∀ v : vmu_pkg, vmu_eyecatch_size v.eyecatch_type < 0 → vmu_pkg_build v = none) ∧
    (∀ data : List Nat, (vmu_pkg_parse data).1.isSome = true ↔
      u16de (data.drop 70) =
        vmu_pkg_crc ((setU16 data 70 0).take (vmu_parse_total data).toNat)) := by
  constructor
  · intro v hv
    unfold vmu_pkg_build
    rw [if_pos hv]
  · exact vmu_parse_isSome_iff

/-- Claim C3 witness: build rejects the eyecatch type 4. -/
theorem C3_build_rejects_witness :
    vmu_eyecatch_size pkgBad.eyecatch_type < 0 ∧ vmu_pkg_build pkgBad = none :=
  ⟨by decide, C3_build_rejects_parse_without_check.1 pkgBad (by decide)⟩

/-- Claim C4 counterexample: for the valid view `pkgA` (desc_short "A",
one character, well within its 16-byte field), `parse(build(pkgA))`
succeeds but its desc_short with the appended terminator dropped is the
space-padded 16-byte field, not `pkgA`'s one-byte string: the description
fields are not reproduced exactly. -/
theorem C4_roundtrip_counterexample :
    WFpkg pkgA ∧
    vmu_pkg_build pkgA =
      some (vmu_body pkgA (vmu_pkg_crc (vmu_body pkgA 0)), vmu_build_size pkgA) ∧
    (vmu_pkg_parse (vmu_body pkgA (vmu_pkg_crc (vmu_body pkgA 0)))).1.isSome = true ∧
    (vmu_pkg_parse (vmu_body pkgA (vmu_pkg_crc (vmu_body pkgA 0)))).1.map
      (fun p => p.desc_short.dropLast) ≠ some pkgA.desc_short := by
  have h := vmu_parse_build pkgA (by decide)
  refine ⟨by decide, ?_, ?_, ?_⟩
  · unfold vmu_pkg_build
    rw [if_neg (by decide)]
  · rw [h]
    rfl
  · rw [h]
    decide

/-- Claim C4 (amended): for every well-formed view, build succeeds and
parse of the built buffer reproduces every field exactly except that the
two description fields come back space-padded to their field widths and
app_id zero-padded to its width, each with a terminator appended; the
buffer itself is returned unchanged. -/
theorem C4_roundtrip_amended (v : vmu_pkg) (h : WFpkg v) :
    vmu_pkg_build v = some (vmu_body v (vmu_pkg_crc (vmu_body v 0)), vmu_build_size v) ∧
    vmu_pkg_parse (vmu_body v (vmu_pkg_crc (vmu_body v 0))) =
      (some { v with
          desc_short := v.desc_short ++ List.replicate (16 - v.desc_short.length) 32 ++ [0]
          desc_long := v.desc_long ++ List.replicate (32 - v.desc_long.length) 32 ++ [0]
          app_id := v.app_id ++ List.replicate (16 - v.app_id.length) 0 ++ [0] },
       vmu_body v (vmu_pkg_crc (vmu_body v 0))) := by
  constructor
  · obtain ⟨-, -, -, -, -, -, -, -, hty, -⟩ := h
    unfold vmu_pkg_build
    rw [if_neg (not_lt.mpr (vmu_ec_nonneg _ hty))]
  · exact vmu_parse_build v h

/-- Claim C4 witness at the section 8 scenario view. -/
theorem C4_roundtrip_witness :
    WFpkg pkgA ∧
    (vmu_pkg_build pkgA =
       some (vmu_body pkgA (vmu_pkg_crc (vmu_body pkgA 0)), vmu_build_size pkgA) ∧
     vmu_pkg_parse (vmu_body pkgA (vmu_pkg_crc (vmu_body pkgA 0))) =
       (some { pkgA with
           desc_short := pkgA.desc_short ++
             List.replicate (16 - pkgA.desc_short.length) 32 ++ [0]
           desc_long := pkgA.desc_long ++
             List.replicate (32 - pkgA.desc_long.length) 32 ++ [0]
           app_id := pkgA.app_id ++ List.replicate (16 - pkgA.app_id.length) 0 ++ [0] },
        vmu_body pkgA (vmu_pkg_crc (vmu_body pkgA 0)))) :=
  ⟨by decide, C4_roundtrip_amended pkgA (by decide)⟩

/-- Claim C5: whenever the stored CRC differs from the CRC recomputed over
the full expected size with the CRC field zeroed, parse fails, populates
no field of the view, and returns the buffer byte-for-byte unchanged (the
CRC field restored even on mismatch). -/
theorem C5_crc_mismatch (data : List Nat) (hb : ∀ b ∈ data, b < 256)
    (hne : u16de (data.drop 70) ≠
      vmu_pkg_crc ((setU16 data 70 0).take (vmu_parse_total data).toNat)) :
    vmu_pkg_parse data = (none, data) :=
  vmu_parse_mismatch data hb hne

/-- Claim C5 witness: a header whose stored CRC is 1 while the recomputed
CRC over the zeroed buffer is 0. -/
theorem C5_crc_mismatch_witness :
    (∀ b ∈ mismatchBuf, b < 256) ∧
    u16de (mismatchBuf.drop 70) ≠
      vmu_pkg_crc ((setU16 mismatchBuf 70 0).take (vmu_parse_total mismatchBuf).toNat) ∧
    vmu_pkg_parse mismatchBuf = (none, mismatchBuf) :=
  ⟨by decide, mismatchBuf_ne, C5_crc_mismatch mismatchBuf (by decide) mismatchBuf_ne⟩

/-- Claim C6: for every raw condition record with a 16-bit button field,
the published normalized state has buttons equal to the bitwise inverse
masked to 16 bits, triggers passed through unchanged, and each axis equal
to the raw unsigned value minus 128. -/
theorem C6_decode (raw : cont_cond) (h : raw.buttons < 65536) :
    (cont_decode raw).buttons = raw.buttons ^^^ 0xffff ∧
    (cont_decode raw).ltrig = raw.ltrig ∧
    (cont_decode raw).rtrig = raw.rtrig ∧
    (cont_decode raw).joyx = (raw.joyx : Int) - 128 ∧
    (cont_decode raw).joyy = (raw.joyy : Int) - 128 ∧
    (cont_decode raw).joy2x = (raw.joy2x : Int) - 128 ∧
    (cont_decode raw).joy2y = (raw.joy2y : Int) - 128 :=
  ⟨xor32_and16 raw.buttons h, rfl, rfl, rfl, rfl, rfl, rfl⟩

/-- Claim C6 witness at a sample raw record. -/
theorem C6_decode_witness :
    rawA.buttons < 65536 ∧
    ((cont_decode rawA).buttons = rawA.buttons ^^^ 0xffff ∧
     (cont_decode rawA).ltrig = rawA.ltrig ∧
     (cont_decode rawA).rtrig = rawA.rtrig ∧
     (cont_decode rawA).joyx = (rawA.joyx : Int) - 128 ∧
     (cont_decode rawA).joyy = (rawA.joyy : Int) - 128 ∧
     (cont_decode rawA).joy2x = (rawA.joy2x : Int) - 128 ∧
     (cont_decode rawA).joy2y = (rawA.joy2y : Int) - 128) :=
  ⟨by decide, C6_decode rawA (by decide)⟩

/-- Claim C7: installing with a NULL sink removes exactly the
registrations whose (address, mask) pair matches — regardless of their
sinks — destroying each removed registration's worker during the call and
leaving all other registrations in place; a subsequent full teardown
(`cont_btn_callback_del` with NULL params, as called by `cont_shutdown`)
empties the registry, destroying every remaining worker. -/
theorem C7_null_sink_removes_pair (l : List cont_callback_params) (addr btns : Nat) :
    (cont_btn_callback addr btns 0 true true 0 l).1 = 0 ∧
    (cont_btn_callback addr btns 0 true true 0 l).2.1 =
      l.filter (fun c => !(addr == c.addr && btns == c.btns)) ∧
    (cont_btn_callback addr btns 0 true true 0 l).2.2 =
      (l.filter (fun c => addr == c.addr && btns == c.btns)).map (fun c => c.worker) ∧
    (cont_btn_callback_del none ((cont_btn_callback addr btns 0 true true 0 l).2.1)).1 =
      [] ∧
    (cont_btn_callback_del none ((cont_btn_callback addr btns 0 true true 0 l).2.1)).2 =
      ((cont_btn_callback addr btns 0 true true 0 l).2.1).map (fun c => c.worker) := by
  have hdel : cont_btn_callback_del (some (null_cb_params addr btns)) l =
      (l.filter (fun c => !(addr == c.addr && btns == c.btns)),
       (l.filter (fun c => addr == c.addr && btns == c.btns)).map (fun c => c.worker)) := by
    unfold cont_btn_callback_del
    simp only [Prod.mk.injEq]
    constructor
    · exact List.filter_congr
        (fun c _ => congrArg (fun b => !b) (shouldDel_null_cb addr btns c))
    · rw [List.filter_congr (fun c _ => shouldDel_null_cb addr btns c)]
  have hc : cont_btn_callback addr btns 0 true true 0 l =
      (0, (cont_btn_callback_del (some (null_cb_params addr btns)) l).1,
       (cont_btn_callback_del (some (null_cb_params addr btns)) l).2) := rfl
  rw [hc, hdel]
  refine ⟨rfl, rfl, rfl, ?_, ?_⟩
  · rw [cont_del_none]
  · rw [cont_del_none]

/-- Claim C8: with a non-null sink, failure of the registration record
allocation or of the worker creation makes the call return -1 with the
registration list untouched and no worker destroyed. -/
theorem C8_alloc_failure (addr btns cb wid : Nat) (wOk : Bool)
    (l : List cont_callback_params) (h : cb ≠ 0) :
    cont_btn_callback addr btns cb false wOk wid l = (-1, l, []) ∧
    cont_btn_callback addr btns cb true false wid l = (-1, l, []) := by
  have hcb : (cb == 0) = false := by
    simp [h]
  exact ⟨rfl, by simp [cont_btn_callback, hcb]⟩

/-- Claim C8 witness. -/
theorem C8_alloc_failure_witness :
    (3 : Nat) ≠ 0 ∧
    (cont_btn_callback 1 2 3 false true 0 [regW] = (-1, [regW], []) ∧
     cont_btn_callback 1 2 3 true false 0 [regW] = (-1, [regW], [])) :=
  ⟨by decide, C8_alloc_failure 1 2 3 0 true [regW] (by decide)⟩

/-- Claim C9: when the registry mutation lock is held at poll-response
time, the response path still publishes the decoded state but skips the
scan entirely: the registry is untouched (no pending match recorded) and
no worker is woken. -/
theorem C9_scan_skipped (dev_addr : Nat) (raw : cont_cond)
    (l : List cont_callback_params) :
    cont_reply true dev_addr raw l = (cont_decode raw, l, []) := rfl

/-- Claim C10: the NULL-sink (uninstall) path first allocates a temporary
record: if that allocation fails the call returns -1 and removes nothing;
if it succeeds the call returns 0 even when nothing matches (and then the
list is unchanged). -/
theorem C10_null_sink_return (addr btns wid : Nat) (wOk : Bool)
    (l : List cont_callback_params) :
    cont_btn_callback addr btns 0 false wOk wid l = (-1, l, []) ∧
    (cont_btn_callback addr btns 0 true wOk wid l).1 = 0 ∧
    ((∀ c ∈ l, ¬(addr = c.addr ∧ btns = c.btns)) →
      (cont_btn_callback addr btns 0 true wOk wid l).2.1 = l) := by
  refine ⟨rfl, rfl, ?_⟩
  intro hno
  have hc : (cont_btn_callback addr btns 0 true wOk wid l).2.1 =
      l.filter (fun c => !(shouldDel (some (null_cb_params addr btns)) c)) := rfl
  rw [hc]
  apply List.filter_eq_self.mpr
  intro c hcmem
  rw [shouldDel_null_cb]
  have hn := hno c hcmem
  simp only [Bool.not_eq_true', Bool.and_eq_false_iff, beq_eq_false_iff_ne]
  tauto

/-- Claim C10 witness: uninstalling a pair no registration carries. -/
theorem C10_null_sink_return_witness :
    (∀ c ∈ [regW], ¬((1 : Nat) = c.addr ∧ (2 : Nat) = c.btns)) ∧
    cont_btn_callback 1 2 0 false true 0 [regW] = (-1, [regW], []) ∧
    (cont_btn_callback 1 2 0 true true 0 [regW]).1 = 0 ∧
    (cont_btn_callback 1 2 0 true true 0 [regW]).2.1 = [regW] :=
  ⟨by decide, (C10_null_sink_return 1 2 0 true [regW]).1,
   (C10_null_sink_return 1 2 0 true [regW]).2.1,
   (C10_null_sink_return 1 2 0 true [regW]).2.2 (by decide)⟩
